import Mathlib

/-!
Shallow embedding of the caching / request-shaping core of the
LinearGraphQLClient (src/graphql/client.ts): the operation executor,
the two-entry reference-data cache (workflow states, issue labels),
the per-team agent-label resolver, and the facade operations that
compose them.  Asynchronous methods are embedded as pure state-passing
functions; the transport adapter is an explicit oracle; every transport
request that an operation issues is recorded in a call log, so that
"no network call" / "exactly one fetch" properties are expressible.
-/

namespace LinearMCP

/-- Fixed marker-label name (source: `const labelName = 'agent'`). -/
def labelName : String := "agent"

/-- Team record (team.types.ts `Team`, the fields this layer reads). -/
structure Team where
  id : String
  name : String
deriving Repr, DecidableEq

/-- Issue label (team.types.ts `Label`). -/
structure Label where
  id : String
  name : String
  team : Team
deriving Repr, DecidableEq

/-- Connection wrapper for labels (`issueLabels: { nodes: Label[] }`). -/
structure IssueLabelsConnection where
  nodes : List Label
deriving Repr, DecidableEq

/-- team.types.ts `IssueLabelsResponse`. -/
structure IssueLabelsResponse where
  issueLabels : IssueLabelsConnection
deriving Repr, DecidableEq

/-- team.types.ts `State` (a workflow state). -/
structure WorkflowState where
  id : String
  name : String
  team : Team
deriving Repr, DecidableEq

/-- Connection wrapper (`workflowStates: { nodes: State[] }`). -/
structure WorkflowStatesConnection where
  nodes : List WorkflowState
deriving Repr, DecidableEq

/-- team.types.ts `WorkflowStatesResponse`. -/
structure WorkflowStatesResponse where
  workflowStates : WorkflowStatesConnection
deriving Repr, DecidableEq

/-- team.types.ts `IssueLabelCreateInput`. -/
structure IssueLabelCreateInput where
  name : String
  color : Option String := none
  teamId : String
  description : Option String := none
deriving Repr, DecidableEq

/-- Payload of the issueLabelCreate mutation. -/
structure IssueLabelCreatePayload where
  success : Bool
  issueLabel : Label
deriving Repr, DecidableEq

/-- team.types.ts `LabelResponse`. -/
structure LabelResponse where
  issueLabelCreate : IssueLabelCreatePayload
deriving Repr, DecidableEq

/-- issue.types.ts `CreateIssueInput`. -/
structure CreateIssueInput where
  title : String
  description : String
  teamId : String
  assigneeId : Option String := none
  priority : Option Int := none
  projectId : Option String := none
  stateId : Option String := none
  labelIds : Option (List String) := none
deriving Repr, DecidableEq

/-- Optional nested project reference on an issue record. -/
structure IssueProjectRef where
  name : String
deriving Repr, DecidableEq

/-- Optional nested state reference on an issue record. -/
structure IssueStateRef where
  name : String
deriving Repr, DecidableEq

/-- issue.types.ts `Issue`. -/
structure Issue where
  id : String
  identifier : String
  title : String
  url : String
  project : Option IssueProjectRef := none
  state : Option IssueStateRef := none
deriving Repr, DecidableEq

/-- Payload of the issueCreate mutation. -/
structure IssueCreatePayload where
  success : Bool
  issue : Option Issue
deriving Repr, DecidableEq

/-- issue.types.ts `CreateIssueResponse`. -/
structure CreateIssueResponse where
  issueCreate : IssueCreatePayload
deriving Repr, DecidableEq

/-- Payload of the issueBatchCreate mutation. -/
structure IssueBatchCreatePayload where
  success : Bool
  issues : List Issue
  lastSyncId : Int
deriving Repr, DecidableEq

/-- issue.types.ts `IssueBatchResponse`. -/
structure IssueBatchResponse where
  issueBatchCreate : IssueBatchCreatePayload
deriving Repr, DecidableEq

/-- project.types.ts `ProjectInput`. -/
structure ProjectInput where
  name : String
  description : Option String := none
  teamIds : List String
  state : Option String := none
deriving Repr, DecidableEq

/-- Connection wrapper for teams on a project. -/
structure TeamConnection where
  nodes : List Team
deriving Repr, DecidableEq

/-- project.types.ts `Project`. -/
structure Project where
  id : String
  name : String
  description : String
  url : String
  teams : TeamConnection
deriving Repr, DecidableEq

/-- Payload of the projectCreate mutation. -/
structure ProjectCreatePayload where
  success : Bool
  project : Project
  lastSyncId : Int
deriving Repr, DecidableEq

/-- project.types.ts `ProjectResponse` (issueBatchCreate is optional;
it is filled in only by createProjectWithIssues). -/
structure ProjectResponse where
  projectCreate : ProjectCreatePayload
  issueBatchCreate : Option IssueBatchCreatePayload := none
deriving Repr, DecidableEq

/-- issue.types.ts `SearchIssuesInput` (the filter-relevant fields). -/
structure SearchIssuesInput where
  query : Option String := none
  ids : Option (List String) := none
  projectId : Option String := none
  teamIds : Option (List String) := none
  assigneeIds : Option (List String) := none
  stateIds : Option (List String) := none
  labelIds : Option (List String) := none
  priority : Option Int := none
deriving Repr, DecidableEq

/-- The remote filter object built by searchIssues.  A `none` field is a
key absent from the record; `search` holds a free-text clause, `id`,
`team`, `assignee`, `state` and `labels` hold id-membership clauses,
`project` an id-equality clause and `priority` a numeric equality
clause, matching the shapes the source assigns to the keys. -/
structure IssueFilter where
  search : Option String := none
  id : Option (List String) := none
  project : Option String := none
  team : Option (List String) := none
  assignee : Option (List String) := none
  state : Option (List String) := none
  labels : Option (List String) := none
  priority : Option Int := none
deriving Repr, DecidableEq

/-- page info of a search response. -/
structure PageInfo where
  hasNextPage : Bool
  endCursor : Option String
deriving Repr, DecidableEq

/-- Connection wrapper of a search response. -/
structure IssueConnection where
  pageInfo : PageInfo
  nodes : List Issue
deriving Repr, DecidableEq

/-- issue.types.ts `SearchIssuesResponse`. -/
structure SearchIssuesResponse where
  issues : IssueConnection
deriving Repr, DecidableEq

/-- One transport request issued by the client, with the variables the
mutation/query was executed with. -/
inductive Call where
  | getWorkflowStates : Call
  | getIssueLabels : Call
  | issueLabelCreate (input : IssueLabelCreateInput) : Call
  | issueCreate (input : CreateIssueInput) : Call
  | issueBatchCreate (issues : List CreateIssueInput) : Call
  | projectCreate (input : ProjectInput) : Call
  | searchIssuesQ (filter : IssueFilter) (first : Nat) (after : Option String)
      (orderBy : String) : Call
deriving Repr, DecidableEq

/-- True exactly on the label-listing query. -/
def Call.isLabelListing : Call → Bool
  | Call.getIssueLabels => true
  | _ => false

/-- True exactly on the create-label mutation. -/
def Call.isLabelCreate : Call → Bool
  | Call.issueLabelCreate _ => true
  | _ => false

/-- True exactly on the batch-issue-create mutation. -/
def Call.isBatchCreate : Call → Bool
  | Call.issueBatchCreate _ => true
  | _ => false

/-- The transport adapter as a deterministic oracle: for each GraphQL
document the client can execute, the decoded payload or the error the
raw request produces. -/
structure Transport where
  workflowStates : Except String WorkflowStatesResponse
  issueLabels : Except String IssueLabelsResponse
  issueLabelCreate : IssueLabelCreateInput → Except String LabelResponse
  issueCreate : CreateIssueInput → Except String CreateIssueResponse
  issueBatchCreate : List CreateIssueInput → Except String IssueBatchResponse
  projectCreate : ProjectInput → Except String ProjectResponse
  searchIssues : IssueFilter → Nat → Option String → String →
      Except String SearchIssuesResponse

/-- A cache entry: `data` plus the Date.now() timestamp at which it was
stored (client.ts `{ data, timestamp }`). -/
structure CacheEntry (α : Type) where
  data : α
  timestamp : Nat
deriving Repr, DecidableEq

/-- The mutable state of one LinearGraphQLClient instance: the
agent-label map (a JS Map, embedded as an association list in which
`mapSet` overwrites) and the two reference-data cache slots. -/
structure ClientState where
  agentLabelCache : List (String × Label) := []
  states : Option (CacheEntry WorkflowStatesResponse) := none
  labels : Option (CacheEntry IssueLabelsResponse) := none
deriving Repr, DecidableEq

/-- `Map.get`: the value stored for the key, if any. -/
def mapGet (m : List (String × Label)) (k : String) : Option Label :=
  (m.find? (fun p => p.1 == k)).map Prod.snd

/-- `Map.set`: store the value for the key, overwriting any prior one. -/
def mapSet (m : List (String × Label)) (k : String) (v : Label) :
    List (String × Label) :=
  (k, v) :: m.filter (fun p => p.1 != k)

/-- Default cache expiration window: 30 minutes in milliseconds. -/
def cacheExpirationTime : Nat := 30 * 60 * 1000

/-- The result of one facade operation: the value or error the promise
settles with, the client state after the call, and the transport
requests issued during the call, in order. -/
structure OpResult (α : Type) where
  result : Except String α
  state : ClientState
  calls : List Call
deriving Repr

/-- `execute`: forwards a request to the transport and, on failure,
wraps the error message behind the fixed prefix (client.ts
`execute`). -/
def execute {α : Type} (r : Except String α) : Except String α :=
  match r with
  | Except.ok v => Except.ok v
  | Except.error msg => Except.error ("GraphQL operation failed: " ++ msg)

/-- The fetch-and-store arm of `getStates`: one executor call, then
`this.cache.states = { data, timestamp: now }` on success. -/
def fetchStates (tr : Transport) (now : Nat) (s : ClientState) :
    OpResult WorkflowStatesResponse :=
  match execute tr.workflowStates with
  | Except.ok data =>
      ⟨Except.ok data, { s with states := some ⟨data, now⟩ }, [Call.getWorkflowStates]⟩
  | Except.error e => ⟨Except.error e, s, [Call.getWorkflowStates]⟩

/-- client.ts `getStates(forceRefresh)`. -/
def getStates (tr : Transport) (now : Nat) (forceRefresh : Bool)
    (s : ClientState) : OpResult WorkflowStatesResponse :=
  match s.states with
  | some cachedData =>
      if forceRefresh = false ∧ now - cachedData.timestamp < cacheExpirationTime then
        ⟨Except.ok cachedData.data, s, []⟩
      else fetchStates tr now s
  | none => fetchStates tr now s

/-- The fetch-and-store arm of `getLabels`. -/
def fetchLabels (tr : Transport) (now : Nat) (s : ClientState) :
    OpResult IssueLabelsResponse :=
  match execute tr.issueLabels with
  | Except.ok data =>
      ⟨Except.ok data, { s with labels := some ⟨data, now⟩ }, [Call.getIssueLabels]⟩
  | Except.error e => ⟨Except.error e, s, [Call.getIssueLabels]⟩

/-- client.ts `getLabels(forceRefresh)`. -/
def getLabels (tr : Transport) (now : Nat) (forceRefresh : Bool)
    (s : ClientState) : OpResult IssueLabelsResponse :=
  match s.labels with
  | some cachedData =>
      if forceRefresh = false ∧ now - cachedData.timestamp < cacheExpirationTime then
        ⟨Except.ok cachedData.data, s, []⟩
      else fetchLabels tr now s
  | none => fetchLabels tr now s

/-- client.ts `createIssueLabel(label)`: one executor call, no state
change. -/
def createIssueLabel (tr : Transport) (input : IssueLabelCreateInput)
    (s : ClientState) : OpResult LabelResponse :=
  ⟨execute (tr.issueLabelCreate input), s, [Call.issueLabelCreate input]⟩

/-- client.ts `createOrGetAgentLabel(teamId, forceRefresh)`: consult the
agent-label map unless forced; on a miss, list labels with
`getLabels(true)`, search them by name, and either memoize the found
label or create one (name=labelName, teamId, description "Automation"),
memoizing the payload's issueLabel.  The payload's success flag is not
inspected. -/
def createOrGetAgentLabel (tr : Transport) (now : Nat) (teamId : String)
    (forceRefresh : Bool) (s : ClientState) : OpResult Label :=
  match (if forceRefresh then none else mapGet s.agentLabelCache teamId) with
  | some cachedLabel => ⟨Except.ok cachedLabel, s, []⟩
  | none =>
    let r := getLabels tr now true s
    match r.result with
    | Except.error e => ⟨Except.error e, r.state, r.calls⟩
    | Except.ok labels =>
      match labels.issueLabels.nodes.find? (fun label => label.name == labelName) with
      | some label =>
          ⟨Except.ok label,
            { r.state with agentLabelCache := mapSet r.state.agentLabelCache teamId label },
            r.calls⟩
      | none =>
        let labelInput : IssueLabelCreateInput :=
          { name := labelName, teamId := teamId, description := some "Automation" }
        let c := createIssueLabel tr labelInput r.state
        match c.result with
        | Except.error e => ⟨Except.error e, c.state, r.calls ++ c.calls⟩
        | Except.ok createdLabel =>
          let newLabel := createdLabel.issueLabelCreate.issueLabel
          ⟨Except.ok newLabel,
            { c.state with agentLabelCache := mapSet c.state.agentLabelCache teamId newLabel },
            r.calls ++ c.calls⟩

/-- The labelIds rewrite applied before submission:
`input.labelIds = [...(input.labelIds ?? []), label.id]`. -/
def appendLabelId (input : CreateIssueInput) (label : Label) : CreateIssueInput :=
  { input with labelIds := some (input.labelIds.getD [] ++ [label.id]) }

/-- client.ts `createIssue(input)`: resolve the agent label for
input.teamId, append its id to labelIds, then execute the create-issue
mutation. -/
def createIssue (tr : Transport) (now : Nat) (input : CreateIssueInput)
    (s : ClientState) : OpResult CreateIssueResponse :=
  let r := createOrGetAgentLabel tr now input.teamId false s
  match r.result with
  | Except.error e => ⟨Except.error e, r.state, r.calls⟩
  | Except.ok label =>
    let input2 := appendLabelId input label
    ⟨execute (tr.issueCreate input2), r.state, r.calls ++ [Call.issueCreate input2]⟩

/-- The per-issue label-resolution phase of `createIssues`: resolve the
agent label for each issue's teamId and append its id to that issue's
labelIds; any single resolution failure aborts (the source launches the
resolutions concurrently under single-threaded cooperative scheduling;
this embedding fixes the list-order interleaving of those tasks). -/
def resolveIssuesLabels (tr : Transport) (now : Nat) :
    List CreateIssueInput → ClientState →
    Except String (List CreateIssueInput) × ClientState × List Call
  | [], s => (Except.ok [], s, [])
  | issue :: rest, s =>
    let r := createOrGetAgentLabel tr now issue.teamId false s
    match r.result with
    | Except.error e => (Except.error e, r.state, r.calls)
    | Except.ok label =>
      let rr := resolveIssuesLabels tr now rest r.state
      match rr.1 with
      | Except.error e => (Except.error e, rr.2.1, r.calls ++ rr.2.2)
      | Except.ok rest2 =>
          (Except.ok (appendLabelId issue label :: rest2), rr.2.1, r.calls ++ rr.2.2)

/-- client.ts `createIssues(issues)`: resolve and append the agent label
for every issue, then execute one batch-create mutation. -/
def createIssues (tr : Transport) (now : Nat) (issues : List CreateIssueInput)
    (s : ClientState) : OpResult IssueBatchResponse :=
  let r := resolveIssuesLabels tr now issues s
  match r.1 with
  | Except.error e => ⟨Except.error e, r.2.1, r.2.2⟩
  | Except.ok issues2 =>
      ⟨execute (tr.issueBatchCreate issues2), r.2.1,
        r.2.2 ++ [Call.issueBatchCreate issues2]⟩

/-- client.ts `createProject(input)`: one executor call. -/
def createProject (tr : Transport) (input : ProjectInput) (s : ClientState) :
    OpResult ProjectResponse :=
  ⟨execute (tr.projectCreate input), s, [Call.projectCreate input]⟩

/-- client.ts `createBatchIssues(issues)`: one batch-create executor
call on the issues exactly as given (no label resolution). -/
def createBatchIssues (tr : Transport) (issues : List CreateIssueInput)
    (s : ClientState) : OpResult IssueBatchResponse :=
  ⟨execute (tr.issueBatchCreate issues), s, [Call.issueBatchCreate issues]⟩

/-- client.ts `createProjectWithIssues(projectInput, issues)`: create
the project; on a false success flag throw "Failed to create project";
otherwise stamp the new project id onto every issue, run
createBatchIssues once, and on a false success flag throw "Failed to
create issues". -/
def createProjectWithIssues (tr : Transport) (projectInput : ProjectInput)
    (issues : List CreateIssueInput) (s : ClientState) : OpResult ProjectResponse :=
  let pr := createProject tr projectInput s
  match pr.result with
  | Except.error e => ⟨Except.error e, pr.state, pr.calls⟩
  | Except.ok projectResult =>
    if projectResult.projectCreate.success = false then
      ⟨Except.error "Failed to create project", pr.state, pr.calls⟩
    else
      let issuesWithProject := issues.map
        (fun issue => { issue with projectId := some projectResult.projectCreate.project.id })
      let ir := createBatchIssues tr issuesWithProject pr.state
      match ir.result with
      | Except.error e => ⟨Except.error e, ir.state, pr.calls ++ ir.calls⟩
      | Except.ok issuesResult =>
        if issuesResult.issueBatchCreate.success = false then
          ⟨Except.error "Failed to create issues", ir.state, pr.calls ++ ir.calls⟩
        else
          ⟨Except.ok { projectCreate := projectResult.projectCreate,
                       issueBatchCreate := some issuesResult.issueBatchCreate },
            ir.state, pr.calls ++ ir.calls⟩

/-- JS truthiness of an optional string field: present and non-empty. -/
def strTruthy : Option String → Bool
  | some str => str != ""
  | none => false

/-- The filter object `searchIssues` builds: each branch mirrors one
`if` of the source; string fields are tested by truthiness, list fields
by presence (a defined array is always truthy), and priority by
`typeof args.priority === 'number'`. -/
def searchIssuesFilter (args : SearchIssuesInput) : IssueFilter :=
  let filter : IssueFilter := {}
  let filter := if strTruthy args.query then { filter with search := args.query } else filter
  let filter := if args.ids.isSome then { filter with id := args.ids } else filter
  let filter := if strTruthy args.projectId then { filter with project := args.projectId } else filter
  let filter := if args.teamIds.isSome then { filter with team := args.teamIds } else filter
  let filter := if args.assigneeIds.isSome then { filter with assignee := args.assigneeIds } else filter
  let filter := if args.stateIds.isSome then { filter with state := args.stateIds } else filter
  let filter := if args.labelIds.isSome then { filter with labels := args.labelIds } else filter
  let filter := if args.priority.isSome then { filter with priority := args.priority } else filter
  filter

/-- client.ts `searchIssues(args, first, after, orderBy)`: build the
filter, then execute the search query with the filter and the
pass-through pagination parameters. -/
def searchIssues (tr : Transport) (args : SearchIssuesInput) (first : Nat)
    (after : Option String) (orderBy : String) (s : ClientState) :
    OpResult SearchIssuesResponse :=
  let filter := searchIssuesFilter args
  ⟨execute (tr.searchIssues filter first after orderBy), s,
    [Call.searchIssuesQ filter first after orderBy]⟩

/-! ### Concrete fixtures used by witnesses and counterexamples -/

/-- A first concrete team. -/
def teamA : Team := ⟨"T1", "Team One"⟩

/-- A second concrete team, distinct from `teamA`. -/
def teamB : Team := ⟨"T2", "Team Two"⟩

/-- A concrete label named "agent" belonging to `teamA`. -/
def agentA : Label := ⟨"L-agent", "agent", teamA⟩

/-- A concrete label with an unrelated name. -/
def bugLabel : Label := ⟨"L-bug", "bug", teamA⟩

/-- A labels listing that contains the marker label. -/
def labelsWithAgent : IssueLabelsResponse := ⟨⟨[bugLabel, agentA]⟩⟩

/-- A labels listing without the marker label. -/
def labelsNoAgent : IssueLabelsResponse := ⟨⟨[bugLabel]⟩⟩

/-- A concrete workflow-states payload. -/
def statesResp : WorkflowStatesResponse := ⟨⟨[⟨"S1", "Todo", teamA⟩]⟩⟩

/-- A concrete issue record returned by the remote. -/
def okIssue : Issue := ⟨"I1", "ONE-1", "t", "http://x", none, none⟩

/-- A baseline transport on which everything succeeds and the marker
label already exists remotely. -/
def trOk : Transport where
  workflowStates := Except.ok statesResp
  issueLabels := Except.ok labelsWithAgent
  issueLabelCreate := fun i => Except.ok ⟨⟨true, ⟨"L-new", i.name, teamA⟩⟩⟩
  issueCreate := fun _ => Except.ok ⟨⟨true, some okIssue⟩⟩
  issueBatchCreate := fun _ => Except.ok ⟨⟨true, [okIssue], 1⟩⟩
  projectCreate := fun p => Except.ok ⟨⟨true, ⟨"P1", p.name, "", "http://p", ⟨[]⟩⟩, 1⟩, none⟩
  searchIssues := fun _ _ _ _ => Except.ok ⟨⟨⟨false, none⟩, []⟩⟩

/-- A transport on which every request is rejected. -/
def trErr : Transport where
  workflowStates := Except.error "boom"
  issueLabels := Except.error "boom"
  issueLabelCreate := fun _ => Except.error "boom"
  issueCreate := fun _ => Except.error "boom"
  issueBatchCreate := fun _ => Except.error "boom"
  projectCreate := fun _ => Except.error "boom"
  searchIssues := fun _ _ _ _ => Except.error "boom"

/-- A client state whose two cache slots hold entries stored at time 0. -/
def sFresh : ClientState :=
  { states := some ⟨statesResp, 0⟩, labels := some ⟨labelsWithAgent, 0⟩ }

/-! ### Helper lemmas -/

/-- With forceRefresh true, `getLabels` always takes the fetch arm. -/
theorem getLabels_force (tr : Transport) (now : Nat) (s : ClientState) :
    getLabels tr now true s = fetchLabels tr now s := by
  unfold getLabels
  cases s.labels with
  | none => rfl
  | some e => simp

/-- Looking up the key just stored in the agent-label map returns the
stored value. -/
theorem mapGet_mapSet_self (m : List (String × Label)) (k : String) (v : Label) :
    mapGet (mapSet m k v) k = some v := by
  simp [mapGet, mapSet]

/-! ### C3 and C6: reference-data cache policy -/

/-- C3: for each cached kind, a non-forced call within the expiration
window returns the cached data with no transport call and unchanged
state; otherwise (forced, no entry, or expired entry) the accessor
performs exactly one fetch, overwrites the entry with the fresh data
stamped at now, and returns the fresh data. -/
theorem getStates_getLabels_cache_policy (tr : Transport) (now : Nat) (s : ClientState) :
    (∀ e, s.states = some e → now - e.timestamp < cacheExpirationTime →
      getStates tr now false s = ⟨Except.ok e.data, s, []⟩) ∧
    (∀ fr : Bool, (fr = true ∨ s.states = none ∨
        ∃ e, s.states = some e ∧ cacheExpirationTime ≤ now - e.timestamp) →
      ∀ d, tr.workflowStates = Except.ok d →
      getStates tr now fr s =
        ⟨Except.ok d, { s with states := some ⟨d, now⟩ }, [Call.getWorkflowStates]⟩) ∧
    (∀ e, s.labels = some e → now - e.timestamp < cacheExpirationTime →
      getLabels tr now false s = ⟨Except.ok e.data, s, []⟩) ∧
    (∀ fr : Bool, (fr = true ∨ s.labels = none ∨
        ∃ e, s.labels = some e ∧ cacheExpirationTime ≤ now - e.timestamp) →
      ∀ d, tr.issueLabels = Except.ok d →
      getLabels tr now fr s =
        ⟨Except.ok d, { s with labels := some ⟨d, now⟩ }, [Call.getIssueLabels]⟩) := by
  refine ⟨?_, ?_, ?_, ?_⟩
  · intro e he hlt
    simp [getStates, he, hlt]
  · intro fr hfr d hd
    cases hs : s.states with
    | none => simp [getStates, hs, fetchStates, execute, hd]
    | some e =>
      rcases hfr with hfr | hfr | ⟨e2, he2, hstale⟩
      · subst hfr
        simp [getStates, hs, fetchStates, execute, hd]
      · rw [hs] at hfr; cases hfr
      · rw [hs] at he2
        injection he2 with he2
        subst he2
        have hnl := Nat.not_lt.mpr hstale
        simp [getStates, hs, fetchStates, execute, hd, hnl]
  · intro e he hlt
    simp [getLabels, he, hlt]
  · intro fr hfr d hd
    cases hs : s.labels with
    | none => simp [getLabels, hs, fetchLabels, execute, hd]
    | some e =>
      rcases hfr with hfr | hfr | ⟨e2, he2, hstale⟩
      · subst hfr
        simp [getLabels, hs, fetchLabels, execute, hd]
      · rw [hs] at hfr; cases hfr
      · rw [hs] at he2
        injection he2 with he2
        subst he2
        have hnl := Nat.not_lt.mpr hstale
        simp [getLabels, hs, fetchLabels, execute, hd, hnl]

/-- Witness for C3: on a fresh entry a non-forced getStates serves the
cache with no call; a forced getLabels fetches once and overwrites. -/
theorem getStates_getLabels_cache_policy_witness :
    getStates trOk 5 false sFresh = ⟨Except.ok statesResp, sFresh, []⟩ ∧
    getLabels trOk 5 true sFresh =
      ⟨Except.ok labelsWithAgent, { sFresh with labels := some ⟨labelsWithAgent, 5⟩ },
        [Call.getIssueLabels]⟩ := by
  constructor
  · exact (getStates_getLabels_cache_policy trOk 5 sFresh).1 ⟨statesResp, 0⟩ rfl (by decide)
  · exact (getStates_getLabels_cache_policy trOk 5 sFresh).2.2.2 true (Or.inl rfl)
      labelsWithAgent rfl

/-- C6: when a refresh fetch is attempted (forced, no entry, or expired
entry) and the transport rejects, the wrapped error propagates and the
client state — in particular the previously stored entry, data and
timestamp — is left exactly as it was. -/
theorem failed_refresh_preserves_entry (tr : Transport) (now : Nat) (s : ClientState) :
    (∀ msg, tr.workflowStates = Except.error msg →
      ∀ fr : Bool, (fr = true ∨ s.states = none ∨
          ∃ e, s.states = some e ∧ cacheExpirationTime ≤ now - e.timestamp) →
      getStates tr now fr s =
        ⟨Except.error ("GraphQL operation failed: " ++ msg), s, [Call.getWorkflowStates]⟩) ∧
    (∀ msg, tr.issueLabels = Except.error msg →
      ∀ fr : Bool, (fr = true ∨ s.labels = none ∨
          ∃ e, s.labels = some e ∧ cacheExpirationTime ≤ now - e.timestamp) →
      getLabels tr now fr s =
        ⟨Except.error ("GraphQL operation failed: " ++ msg), s, [Call.getIssueLabels]⟩) := by
  constructor
  · intro msg hmsg fr hfr
    cases hs : s.states with
    | none => simp [getStates, hs, fetchStates, execute, hmsg]
    | some e =>
      rcases hfr with hfr | hfr | ⟨e2, he2, hstale⟩
      · subst hfr
        simp [getStates, hs, fetchStates, execute, hmsg]
      · rw [hs] at hfr; cases hfr
      · rw [hs] at he2
        injection he2 with he2
        subst he2
        have hnl := Nat.not_lt.mpr hstale
        simp [getStates, hs, fetchStates, execute, hmsg, hnl]
  · intro msg hmsg fr hfr
    cases hs : s.labels with
    | none => simp [getLabels, hs, fetchLabels, execute, hmsg]
    | some e =>
      rcases hfr with hfr | hfr | ⟨e2, he2, hstale⟩
      · subst hfr
        simp [getLabels, hs, fetchLabels, execute, hmsg]
      · rw [hs] at hfr; cases hfr
      · rw [hs] at he2
        injection he2 with he2
        subst he2
        have hnl := Nat.not_lt.mpr hstale
        simp [getLabels, hs, fetchLabels, execute, hmsg, hnl]

/-- Witness for C6: a forced refresh against a rejecting transport
propagates the wrapped error and leaves the stored entries intact. -/
theorem failed_refresh_preserves_entry_witness :
    getStates trErr 9 true sFresh =
      ⟨Except.error "GraphQL operation failed: boom", sFresh, [Call.getWorkflowStates]⟩ ∧
    getLabels trErr 9 true sFresh =
      ⟨Except.error "GraphQL operation failed: boom", sFresh, [Call.getIssueLabels]⟩ := by
  constructor
  · exact (failed_refresh_preserves_entry trErr 9 sFresh).1 "boom" rfl true (Or.inl rfl)
  · exact (failed_refresh_preserves_entry trErr 9 sFresh).2 "boom" rfl true (Or.inl rfl)

/-! ### Label-resolver characterization lemmas -/

/-- The create-input the resolver submits when the marker label is
missing (source `labelInput`). -/
def agentLabelInput (teamId : String) : IssueLabelCreateInput :=
  { name := labelName, teamId := teamId, description := some "Automation" }

/-- Memo hit: a mapped teamId is served from the agent-label map with
no transport call and unchanged state, at any time. -/
theorem createOrGetAgentLabel_hit (tr : Transport) (now : Nat) (teamId : String)
    (s : ClientState) (lbl : Label)
    (h : mapGet s.agentLabelCache teamId = some lbl) :
    createOrGetAgentLabel tr now teamId false s = ⟨Except.ok lbl, s, []⟩ := by
  unfold createOrGetAgentLabel
  simp [h]

/-- Memo miss, label listed: the resolver lists labels once, finds the
marker by name, memoizes it under teamId and returns it. -/
theorem createOrGetAgentLabel_found (tr : Transport) (now : Nat) (teamId : String)
    (s : ClientState) (labels : IssueLabelsResponse) (lbl : Label)
    (hm : mapGet s.agentLabelCache teamId = none)
    (hl : tr.issueLabels = Except.ok labels)
    (hf : labels.issueLabels.nodes.find? (fun label => label.name == labelName) = some lbl) :
    createOrGetAgentLabel tr now teamId false s =
      ⟨Except.ok lbl,
        { s with labels := some ⟨labels, now⟩,
                 agentLabelCache := mapSet s.agentLabelCache teamId lbl },
        [Call.getIssueLabels]⟩ := by
  unfold createOrGetAgentLabel
  simp only [getLabels_force]
  simp [hm, fetchLabels, execute, hl, hf]

/-- Memo miss, label absent, creation accepted by the transport: the
resolver lists once, creates once, memoizes and returns the payload's
issueLabel — without inspecting the payload's success flag. -/
theorem createOrGetAgentLabel_created (tr : Transport) (now : Nat) (teamId : String)
    (s : ClientState) (labels : IssueLabelsResponse) (resp : LabelResponse)
    (hm : mapGet s.agentLabelCache teamId = none)
    (hl : tr.issueLabels = Except.ok labels)
    (hf : labels.issueLabels.nodes.find? (fun label => label.name == labelName) = none)
    (hc : tr.issueLabelCreate (agentLabelInput teamId) = Except.ok resp) :
    createOrGetAgentLabel tr now teamId false s =
      ⟨Except.ok resp.issueLabelCreate.issueLabel,
        { s with labels := some ⟨labels, now⟩,
                 agentLabelCache :=
                   mapSet s.agentLabelCache teamId resp.issueLabelCreate.issueLabel },
        [Call.getIssueLabels, Call.issueLabelCreate (agentLabelInput teamId)]⟩ := by
  unfold createOrGetAgentLabel
  simp only [agentLabelInput] at hc
  simp only [getLabels_force]
  simp [hm, fetchLabels, execute, hl, hf, createIssueLabel, agentLabelInput, hc]

/-- Memo miss, label absent, creation rejected by the transport: the
wrapped error propagates and the agent-label map is unchanged (only the
labels cache slot was refreshed by the listing). -/
theorem createOrGetAgentLabel_create_err (tr : Transport) (now : Nat) (teamId : String)
    (s : ClientState) (labels : IssueLabelsResponse) (msg : String)
    (hm : mapGet s.agentLabelCache teamId = none)
    (hl : tr.issueLabels = Except.ok labels)
    (hf : labels.issueLabels.nodes.find? (fun label => label.name == labelName) = none)
    (hc : tr.issueLabelCreate (agentLabelInput teamId) = Except.error msg) :
    createOrGetAgentLabel tr now teamId false s =
      ⟨Except.error ("GraphQL operation failed: " ++ msg),
        { s with labels := some ⟨labels, now⟩ },
        [Call.getIssueLabels, Call.issueLabelCreate (agentLabelInput teamId)]⟩ := by
  unfold createOrGetAgentLabel
  simp only [agentLabelInput] at hc
  simp only [getLabels_force]
  simp [hm, fetchLabels, execute, hl, hf, createIssueLabel, agentLabelInput, hc]

/-- Memo miss, listing rejected: the wrapped error propagates with the
state unchanged. -/
theorem createOrGetAgentLabel_listing_err (tr : Transport) (now : Nat) (teamId : String)
    (s : ClientState) (msg : String)
    (hm : mapGet s.agentLabelCache teamId = none)
    (hl : tr.issueLabels = Except.error msg) :
    createOrGetAgentLabel tr now teamId false s =
      ⟨Except.error ("GraphQL operation failed: " ++ msg), s, [Call.getIssueLabels]⟩ := by
  unfold createOrGetAgentLabel
  simp only [getLabels_force]
  simp [hm, fetchLabels, execute, hl]

/-- Whenever the resolver returns a label, that label is stored in the
agent-label map under teamId in the resulting state. -/
theorem createOrGetAgentLabel_memoizes (tr : Transport) (now : Nat) (teamId : String)
    (s : ClientState) (lbl : Label)
    (h : (createOrGetAgentLabel tr now teamId false s).result = Except.ok lbl) :
    mapGet (createOrGetAgentLabel tr now teamId false s).state.agentLabelCache teamId =
      some lbl := by
  cases hm : mapGet s.agentLabelCache teamId with
  | some c =>
    rw [createOrGetAgentLabel_hit tr now teamId s c hm] at h ⊢
    simp at h
    subst h
    exact hm
  | none =>
    cases hl : tr.issueLabels with
    | error msg =>
      rw [createOrGetAgentLabel_listing_err tr now teamId s msg hm hl] at h
      simp at h
    | ok labels =>
      cases hf : labels.issueLabels.nodes.find? (fun label => label.name == labelName) with
      | some l =>
        rw [createOrGetAgentLabel_found tr now teamId s labels l hm hl hf] at h ⊢
        simp at h
        subst h
        exact mapGet_mapSet_self _ _ _
      | none =>
        cases hc : tr.issueLabelCreate (agentLabelInput teamId) with
        | error msg =>
          rw [createOrGetAgentLabel_create_err tr now teamId s labels msg hm hl hf hc] at h
          simp at h
        | ok resp =>
          rw [createOrGetAgentLabel_created tr now teamId s labels resp hm hl hf hc] at h ⊢
          simp at h
          subst h
          exact mapGet_mapSet_self _ _ _

/-- The calls a resolver invocation can issue: nothing, one listing, or
one listing followed by one create. -/
theorem createOrGetAgentLabel_calls_shape (tr : Transport) (now : Nat) (teamId : String)
    (s : ClientState) :
    (createOrGetAgentLabel tr now teamId false s).calls = [] ∨
    (createOrGetAgentLabel tr now teamId false s).calls = [Call.getIssueLabels] ∨
    (createOrGetAgentLabel tr now teamId false s).calls =
      [Call.getIssueLabels, Call.issueLabelCreate (agentLabelInput teamId)] := by
  cases hm : mapGet s.agentLabelCache teamId with
  | some c =>
    rw [createOrGetAgentLabel_hit tr now teamId s c hm]
    exact Or.inl rfl
  | none =>
    cases hl : tr.issueLabels with
    | error msg =>
      rw [createOrGetAgentLabel_listing_err tr now teamId s msg hm hl]
      exact Or.inr (Or.inl rfl)
    | ok labels =>
      cases hf : labels.issueLabels.nodes.find? (fun label => label.name == labelName) with
      | some l =>
        rw [createOrGetAgentLabel_found tr now teamId s labels l hm hl hf]
        exact Or.inr (Or.inl rfl)
      | none =>
        cases hc : tr.issueLabelCreate (agentLabelInput teamId) with
        | error msg =>
          rw [createOrGetAgentLabel_create_err tr now teamId s labels msg hm hl hf hc]
          exact Or.inr (Or.inr rfl)
        | ok resp =>
          rw [createOrGetAgentLabel_created tr now teamId s labels resp hm hl hf hc]
          exact Or.inr (Or.inr rfl)

/-! ### C5, C9, C2: the label resolver -/

/-- C5: if a first non-forced resolver call for teamId succeeds, a
second non-forced call (at any later time: no expiration check) returns
the memoized label with zero transport calls and unchanged state, and
the first call issued at most one label listing and at most one label
creation in total. -/
theorem agentLabel_second_call_memoized (tr : Transport) (now1 now2 : Nat)
    (teamId : String) (s : ClientState) (lbl : Label)
    (h : (createOrGetAgentLabel tr now1 teamId false s).result = Except.ok lbl) :
    createOrGetAgentLabel tr now2 teamId false
        (createOrGetAgentLabel tr now1 teamId false s).state =
      ⟨Except.ok lbl, (createOrGetAgentLabel tr now1 teamId false s).state, []⟩ ∧
    (createOrGetAgentLabel tr now1 teamId false s).calls.countP Call.isLabelListing ≤ 1 ∧
    (createOrGetAgentLabel tr now1 teamId false s).calls.countP Call.isLabelCreate ≤ 1 := by
  refine ⟨createOrGetAgentLabel_hit _ _ _ _ _
      (createOrGetAgentLabel_memoizes _ _ _ _ _ h), ?_, ?_⟩
  · rcases createOrGetAgentLabel_calls_shape tr now1 teamId s with hcs | hcs | hcs <;>
      simp [hcs, Call.isLabelListing, Call.isLabelCreate]
  · rcases createOrGetAgentLabel_calls_shape tr now1 teamId s with hcs | hcs | hcs <;>
      simp [hcs, Call.isLabelListing, Call.isLabelCreate]

/-- Witness for C5 at a concrete transport: the first call finds the
marker label; the second call, 99 time units later, is a pure memo
hit. -/
theorem agentLabel_second_call_memoized_witness :
    createOrGetAgentLabel trOk 99 "T1" false
        (createOrGetAgentLabel trOk 0 "T1" false {}).state =
      ⟨Except.ok agentA, (createOrGetAgentLabel trOk 0 "T1" false {}).state, []⟩ ∧
    (createOrGetAgentLabel trOk 0 "T1" false {}).calls.countP Call.isLabelListing ≤ 1 ∧
    (createOrGetAgentLabel trOk 0 "T1" false {}).calls.countP Call.isLabelCreate ≤ 1 :=
  agentLabel_second_call_memoized trOk 0 99 "T1" {} agentA (by rfl)

/-- C9: the resolver searches the listed labels by name only — there is
no team filter in the search predicate; whatever label the name search
returns is memoized under teamId and returned, with no create-label
call (its team reference is unconstrained and may differ from
teamId). -/
theorem agentLabel_search_is_workspace_wide (tr : Transport) (now : Nat) (teamId : String)
    (s : ClientState) (labels : IssueLabelsResponse) (lbl : Label)
    (hm : mapGet s.agentLabelCache teamId = none)
    (hl : tr.issueLabels = Except.ok labels)
    (hf : labels.issueLabels.nodes.find? (fun label => label.name == labelName) = some lbl) :
    (createOrGetAgentLabel tr now teamId false s).result = Except.ok lbl ∧
    mapGet (createOrGetAgentLabel tr now teamId false s).state.agentLabelCache teamId =
      some lbl ∧
    (createOrGetAgentLabel tr now teamId false s).calls.countP Call.isLabelCreate = 0 := by
  rw [createOrGetAgentLabel_found tr now teamId s labels lbl hm hl hf]
  exact ⟨rfl, mapGet_mapSet_self _ _ _, by simp [Call.isLabelCreate]⟩

/-- A label named "agent" that belongs to `teamB`. -/
def agentB : Label := ⟨"L-agentB", "agent", teamB⟩

/-- A transport whose only listed label is `agentB`. -/
def trAgentOtherTeam : Transport :=
  { trOk with issueLabels := Except.ok ⟨⟨[agentB]⟩⟩ }

/-- Witness for C9: resolving for team "T9" returns and memoizes
`agentB`, whose team id differs from "T9", with no create call. -/
theorem agentLabel_search_is_workspace_wide_witness :
    agentB.team.id ≠ "T9" ∧
    ((createOrGetAgentLabel trAgentOtherTeam 0 "T9" false {}).result = Except.ok agentB ∧
     mapGet (createOrGetAgentLabel trAgentOtherTeam 0 "T9"
         false {}).state.agentLabelCache "T9" = some agentB ∧
     (createOrGetAgentLabel trAgentOtherTeam 0 "T9" false {}).calls.countP
         Call.isLabelCreate = 0) :=
  ⟨by decide,
    agentLabel_search_is_workspace_wide trAgentOtherTeam 0 "T9" {} ⟨⟨[agentB]⟩⟩ agentB
      rfl rfl (by rfl)⟩

/-- A label the remote returns in a create payload whose success flag
is false. -/
def badLabel : Label := ⟨"L-bad", "agent", teamA⟩

/-- A transport on which the marker label is absent and the create
mutation returns a payload with success = false. -/
def trCreateFalse : Transport :=
  { trOk with
      issueLabels := Except.ok labelsNoAgent,
      issueLabelCreate := fun _ => Except.ok ⟨⟨false, badLabel⟩⟩ }

/-- C2 counterexample: the create mutation's payload reports
success = false, yet the call surfaces no failure — it returns the
payload's issueLabel — and the agent-label map gains an entry for
teamId, contradicting the claim on this input. -/
theorem agentLabel_create_failure_not_surfaced :
    trCreateFalse.issueLabelCreate (agentLabelInput "T1") =
      Except.ok ⟨⟨false, badLabel⟩⟩ ∧
    (createOrGetAgentLabel trCreateFalse 0 "T1" false {}).result = Except.ok badLabel ∧
    mapGet (createOrGetAgentLabel trCreateFalse 0 "T1" false {}).state.agentLabelCache
        "T1" = some badLabel :=
  ⟨rfl, rfl, rfl⟩

/-- C2 (amended): when the marker label is absent from the listed
labels, a create-mutation transport rejection propagates as a wrapped
operation failure with the agent-label map unchanged; but a payload
whose success flag is false is not detected — the payload's issueLabel
is returned and stored under teamId regardless of the flag. -/
theorem agentLabel_create_failure_semantics (tr : Transport) (now : Nat) (teamId : String)
    (s : ClientState) (labels : IssueLabelsResponse)
    (hm : mapGet s.agentLabelCache teamId = none)
    (hl : tr.issueLabels = Except.ok labels)
    (hf : labels.issueLabels.nodes.find? (fun label => label.name == labelName) = none) :
    (∀ msg, tr.issueLabelCreate (agentLabelInput teamId) = Except.error msg →
      (createOrGetAgentLabel tr now teamId false s).result =
        Except.error ("GraphQL operation failed: " ++ msg) ∧
      (createOrGetAgentLabel tr now teamId false s).state.agentLabelCache =
        s.agentLabelCache) ∧
    (∀ resp, tr.issueLabelCreate (agentLabelInput teamId) = Except.ok resp →
      (createOrGetAgentLabel tr now teamId false s).result =
        Except.ok resp.issueLabelCreate.issueLabel ∧
      mapGet (createOrGetAgentLabel tr now teamId false s).state.agentLabelCache teamId =
        some resp.issueLabelCreate.issueLabel) := by
  constructor
  · intro msg hc
    rw [createOrGetAgentLabel_create_err tr now teamId s labels msg hm hl hf hc]
    exact ⟨rfl, rfl⟩
  · intro resp hc
    rw [createOrGetAgentLabel_created tr now teamId s labels resp hm hl hf hc]
    exact ⟨rfl, mapGet_mapSet_self _ _ _⟩

/-- A transport on which the marker label is absent and the create
mutation is rejected at the transport level. -/
def trCreateErr : Transport :=
  { trOk with
      issueLabels := Except.ok labelsNoAgent,
      issueLabelCreate := fun _ => Except.error "nope" }

/-- Witness for the amended C2, covering both arms: a rejected create
propagates wrapped with the map unchanged; an accepted payload with
success = false is stored and returned. -/
theorem agentLabel_create_failure_semantics_witness :
    ((createOrGetAgentLabel trCreateErr 0 "T1" false {}).result =
        Except.error ("GraphQL operation failed: " ++ "nope") ∧
      (createOrGetAgentLabel trCreateErr 0 "T1" false {}).state.agentLabelCache =
        ({} : ClientState).agentLabelCache) ∧
    ((createOrGetAgentLabel trCreateFalse 0 "T1" false {}).result =
        Except.ok ((⟨⟨false, badLabel⟩⟩ : LabelResponse)).issueLabelCreate.issueLabel ∧
      mapGet (createOrGetAgentLabel trCreateFalse 0 "T1" false {}).state.agentLabelCache
          "T1" = some ((⟨⟨false, badLabel⟩⟩ : LabelResponse)).issueLabelCreate.issueLabel) := by
  constructor
  · exact (agentLabel_create_failure_semantics trCreateErr 0 "T1" {} labelsNoAgent
      rfl rfl (by rfl)).1 "nope" rfl
  · exact (agentLabel_create_failure_semantics trCreateFalse 0 "T1" {} labelsNoAgent
      rfl rfl (by rfl)).2 ⟨⟨false, badLabel⟩⟩ rfl

/-! ### C7, C1, C4: issue- and project-creation composites -/

/-- A concrete issue input with no caller-supplied labelIds. -/
def iss1 : CreateIssueInput := { title := "a", description := "d", teamId := "T1" }

/-- A concrete issue input with caller-supplied labelIds. -/
def iss2 : CreateIssueInput :=
  { title := "b", description := "d", teamId := "T1", labelIds := some ["X", "Y"] }

/-- A concrete project input. -/
def projInput : ProjectInput := { name := "P", teamIds := ["T1"] }

/-- C7: when the marker-label resolution for input.teamId succeeds, the
executed create-issue mutation carries the input with labelIds rewritten
to the caller-supplied ids in their original order followed by the
resolved label's id as the last element. -/
theorem createIssue_appends_marker_last (tr : Transport) (now : Nat)
    (input : CreateIssueInput) (s : ClientState) (lbl : Label)
    (h : (createOrGetAgentLabel tr now input.teamId false s).result = Except.ok lbl) :
    createIssue tr now input s =
      ⟨execute (tr.issueCreate (appendLabelId input lbl)),
        (createOrGetAgentLabel tr now input.teamId false s).state,
        (createOrGetAgentLabel tr now input.teamId false s).calls ++
          [Call.issueCreate (appendLabelId input lbl)]⟩ ∧
    (appendLabelId input lbl).labelIds = some (input.labelIds.getD [] ++ [lbl.id]) := by
  constructor
  · simp only [createIssue, h]
  · rfl

/-- Witness for C7 on an input that already carries two label ids: the
mutation is executed with those ids first and the marker id last. -/
theorem createIssue_appends_marker_last_witness :
    createIssue trOk 0 iss2 {} =
      ⟨execute (trOk.issueCreate (appendLabelId iss2 agentA)),
        (createOrGetAgentLabel trOk 0 iss2.teamId false {}).state,
        (createOrGetAgentLabel trOk 0 iss2.teamId false {}).calls ++
          [Call.issueCreate (appendLabelId iss2 agentA)]⟩ ∧
    (appendLabelId iss2 agentA).labelIds = some (iss2.labelIds.getD [] ++ [agentA.id]) :=
  createIssue_appends_marker_last trOk 0 iss2 {} agentA (by rfl)

/-- C1 counterexample: createBatchIssues submits the caller's issues
exactly as given — for an issue with labelIds absent, the single
executed batch-create mutation carries that issue with labelIds = none,
so no marker label id is attached on this facade path. -/
theorem createBatchIssues_not_tagged :
    (createBatchIssues trOk [iss1] {}).calls = [Call.issueBatchCreate [iss1]] ∧
    iss1.labelIds = none ∧
    (createBatchIssues trOk [iss1] {}).result = Except.ok ⟨⟨true, [okIssue], 1⟩⟩ :=
  ⟨rfl, rfl, rfl⟩

/-- Every issue list the label-resolution phase of createIssues accepts
is the input list with, per issue, some resolved label's id appended to
its labelIds. -/
theorem resolveIssuesLabels_shape (tr : Transport) (now : Nat)
    (issues : List CreateIssueInput) :
    ∀ s issues2 s1 cs,
      resolveIssuesLabels tr now issues s = (Except.ok issues2, s1, cs) →
      List.Forall₂ (fun a b => ∃ lbl : Label, b = appendLabelId a lbl) issues issues2 := by
  induction issues with
  | nil =>
    intro s issues2 s1 cs h
    simp only [resolveIssuesLabels, Prod.mk.injEq, Except.ok.injEq] at h
    rcases h with ⟨h1, -, -⟩
    subst h1
    exact List.Forall₂.nil
  | cons issue rest ih =>
    intro s issues2 s1 cs h
    simp only [resolveIssuesLabels] at h
    cases hr : (createOrGetAgentLabel tr now issue.teamId false s).result with
    | error e =>
      rw [hr] at h
      simp at h
    | ok label =>
      rw [hr] at h
      rcases hrec : resolveIssuesLabels tr now rest
          ((createOrGetAgentLabel tr now issue.teamId false s).state) with ⟨res, s2, cs2⟩
      rw [hrec] at h
      cases res with
      | error e => simp at h
      | ok rest2 =>
        simp at h
        rcases h with ⟨h1, -, -⟩
        subst h1
        exact List.Forall₂.cons ⟨label, rfl⟩ (ih _ _ _ _ hrec)

/-- When its resolution phase succeeds, createIssues executes exactly
one batch-create mutation, carrying the rewritten issues. -/
theorem createIssues_batch_call (tr : Transport) (now : Nat)
    (issues : List CreateIssueInput) (s : ClientState)
    (issues2 : List CreateIssueInput) (s1 : ClientState) (cs : List Call)
    (h : resolveIssuesLabels tr now issues s = (Except.ok issues2, s1, cs)) :
    createIssues tr now issues s =
      ⟨execute (tr.issueBatchCreate issues2), s1, cs ++ [Call.issueBatchCreate issues2]⟩ := by
  simp only [createIssues, h]

/-- On a project-create payload whose success flag is true, the
composite runs exactly one batch-create, on the project-stamped issues,
whatever the batch outcome. -/
theorem createProjectWithIssues_calls_on_success (tr : Transport) (p : ProjectInput)
    (issues : List CreateIssueInput) (s : ClientState) (resp : ProjectResponse)
    (hp : tr.projectCreate p = Except.ok resp)
    (hs : resp.projectCreate.success = true) :
    (createProjectWithIssues tr p issues s).calls =
      [Call.projectCreate p,
       Call.issueBatchCreate (issues.map (fun issue =>
         { issue with projectId := some resp.projectCreate.project.id }))] := by
  cases hb : tr.issueBatchCreate (issues.map (fun issue =>
      { issue with projectId := some resp.projectCreate.project.id })) with
  | error e =>
    simp [createProjectWithIssues, createProject, createBatchIssues, execute, hp, hs, hb]
  | ok bresp =>
    cases hbs : bresp.issueBatchCreate.success <;>
      simp [createProjectWithIssues, createProject, createBatchIssues, execute, hp, hs, hb, hbs]

/-- C1 (amended): createIssue and createIssues append the resolved
marker label's id as the last labelIds element of every issue they
submit; createBatchIssues and the batch step of createProjectWithIssues
do not — they submit the caller's issues with labelIds untouched (the
composite only stamps projectId). -/
theorem issue_creation_marker_tagging (tr : Transport) (now : Nat) (s : ClientState) :
    (∀ input lbl,
      (createOrGetAgentLabel tr now input.teamId false s).result = Except.ok lbl →
      (createIssue tr now input s).calls =
        (createOrGetAgentLabel tr now input.teamId false s).calls ++
          [Call.issueCreate (appendLabelId input lbl)]) ∧
    (∀ issues issues2 s1 cs,
      resolveIssuesLabels tr now issues s = (Except.ok issues2, s1, cs) →
      List.Forall₂ (fun a b => ∃ lbl : Label, b = appendLabelId a lbl) issues issues2) ∧
    (∀ issues issues2 s1 cs,
      resolveIssuesLabels tr now issues s = (Except.ok issues2, s1, cs) →
      (createIssues tr now issues s).calls = cs ++ [Call.issueBatchCreate issues2]) ∧
    (∀ issues, (createBatchIssues tr issues s).calls = [Call.issueBatchCreate issues]) ∧
    (∀ p issues resp, tr.projectCreate p = Except.ok resp →
      resp.projectCreate.success = true →
      (createProjectWithIssues tr p issues s).calls =
        [Call.projectCreate p,
         Call.issueBatchCreate (issues.map (fun issue =>
           { issue with projectId := some resp.projectCreate.project.id }))]) := by
  refine ⟨?_, ?_, ?_, ?_, ?_⟩
  · intro input lbl h
    simp only [createIssue, h]
  · intro issues issues2 s1 cs h
    exact resolveIssuesLabels_shape tr now issues s issues2 s1 cs h
  · intro issues issues2 s1 cs h
    rw [createIssues_batch_call tr now issues s issues2 s1 cs h]
  · intro issues
    rfl
  · intro p issues resp hp hs
    exact createProjectWithIssues_calls_on_success tr p issues s resp hp hs

/-- Witness for the amended C1: on the baseline transport, createIssue
and createIssues submit iss1 with the marker id appended, while
createBatchIssues and createProjectWithIssues submit it untouched. -/
theorem issue_creation_marker_tagging_witness :
    (createIssue trOk 0 iss1 {}).calls =
      (createOrGetAgentLabel trOk 0 iss1.teamId false {}).calls ++
        [Call.issueCreate (appendLabelId iss1 agentA)] ∧
    List.Forall₂ (fun a b => ∃ lbl : Label, b = appendLabelId a lbl)
      [iss1] [appendLabelId iss1 agentA] ∧
    (createIssues trOk 0 [iss1] {}).calls =
      [Call.getIssueLabels] ++ [Call.issueBatchCreate [appendLabelId iss1 agentA]] ∧
    (createBatchIssues trOk [iss1] {}).calls = [Call.issueBatchCreate [iss1]] ∧
    (createProjectWithIssues trOk projInput [iss1] {}).calls =
      [Call.projectCreate projInput,
       Call.issueBatchCreate ([iss1].map (fun issue =>
         { issue with projectId := some "P1" }))] := by
  refine ⟨?_, ?_, ?_, ?_, ?_⟩
  · exact (issue_creation_marker_tagging trOk 0 {}).1 iss1 agentA (by rfl)
  · exact (issue_creation_marker_tagging trOk 0 {}).2.1 [iss1] [appendLabelId iss1 agentA]
      { agentLabelCache := [("T1", agentA)], labels := some ⟨labelsWithAgent, 0⟩ }
      [Call.getIssueLabels] (by rfl)
  · exact (issue_creation_marker_tagging trOk 0 {}).2.2.1 [iss1] [appendLabelId iss1 agentA]
      { agentLabelCache := [("T1", agentA)], labels := some ⟨labelsWithAgent, 0⟩ }
      [Call.getIssueLabels] (by rfl)
  · exact (issue_creation_marker_tagging trOk 0 {}).2.2.2.1 [iss1]
  · exact (issue_creation_marker_tagging trOk 0 {}).2.2.2.2 projInput [iss1]
      ⟨⟨true, ⟨"P1", "P", "", "http://p", ⟨[]⟩⟩, 1⟩, none⟩ rfl rfl

/-- C4: on a project payload with success = false the composite rejects
with "Failed to create project" and never attempts the batch mutation;
on success every submitted issue is stamped with the created project's
id in the single batch call, and a batch payload with success = false
makes the composite reject with the distinct error "Failed to create
issues". -/
theorem createProjectWithIssues_flow (tr : Transport) (p : ProjectInput)
    (issues : List CreateIssueInput) (s : ClientState) (resp : ProjectResponse)
    (hp : tr.projectCreate p = Except.ok resp) :
    (resp.projectCreate.success = false →
      createProjectWithIssues tr p issues s =
        ⟨Except.error "Failed to create project", s, [Call.projectCreate p]⟩) ∧
    (resp.projectCreate.success = true →
      (createProjectWithIssues tr p issues s).calls =
        [Call.projectCreate p,
         Call.issueBatchCreate (issues.map (fun issue =>
           { issue with projectId := some resp.projectCreate.project.id }))] ∧
      (∀ issue ∈ issues.map (fun issue =>
           { issue with projectId := some resp.projectCreate.project.id }),
         issue.projectId = some resp.projectCreate.project.id) ∧
      (∀ bresp, tr.issueBatchCreate (issues.map (fun issue =>
             { issue with projectId := some resp.projectCreate.project.id })) =
           Except.ok bresp →
         bresp.issueBatchCreate.success = false →
         (createProjectWithIssues tr p issues s).result =
           Except.error "Failed to create issues")) ∧
    ("Failed to create project" ≠ "Failed to create issues") := by
  refine ⟨?_, ?_, by decide⟩
  · intro hs
    simp [createProjectWithIssues, createProject, execute, hp, hs]
  · intro hs
    refine ⟨createProjectWithIssues_calls_on_success tr p issues s resp hp hs, ?_, ?_⟩
    · intro issue hmem
      rcases List.mem_map.mp hmem with ⟨a, -, ha⟩
      subst ha
      rfl
    · intro bresp hb hbs
      simp [createProjectWithIssues, createProject, createBatchIssues, execute, hp, hs,
        hb, hbs]

/-- A project-create payload whose success flag is false. -/
def projRespFalse : ProjectResponse := ⟨⟨false, ⟨"P1", "P", "", "http://p", ⟨[]⟩⟩, 1⟩, none⟩

/-- A transport on which project creation reports success = false. -/
def trProjFalse : Transport :=
  { trOk with projectCreate := fun _ => Except.ok projRespFalse }

/-- A project-create payload whose success flag is true. -/
def projRespOk : ProjectResponse := ⟨⟨true, ⟨"P1", "P", "", "http://p", ⟨[]⟩⟩, 1⟩, none⟩

/-- A transport on which the project succeeds but the batch-create
payload reports success = false. -/
def trBatchFlagFalse : Transport :=
  { trOk with
      projectCreate := fun _ => Except.ok projRespOk,
      issueBatchCreate := fun _ => Except.ok ⟨⟨false, [], 2⟩⟩ }

/-- Witness for C4, covering both rejection arms at concrete inputs. -/
theorem createProjectWithIssues_flow_witness :
    createProjectWithIssues trProjFalse projInput [iss1] {} =
      ⟨Except.error "Failed to create project", {}, [Call.projectCreate projInput]⟩ ∧
    (createProjectWithIssues trBatchFlagFalse projInput [iss1] {}).result =
      Except.error "Failed to create issues" := by
  constructor
  · exact (createProjectWithIssues_flow trProjFalse projInput [iss1] {} projRespFalse
      rfl).1 rfl
  · exact ((createProjectWithIssues_flow trBatchFlagFalse projInput [iss1] {} projRespOk
      rfl).2.1 rfl).2.2 ⟨⟨false, [], 2⟩⟩ rfl rfl

/-! ### C8, C10: searchIssues filter construction -/

set_option maxHeartbeats 2000000 in
/-- Closed form of the filter: each key independently holds its clause
exactly when its presence test passes. -/
theorem searchIssuesFilter_eq (args : SearchIssuesInput) :
    searchIssuesFilter args =
      { search := if strTruthy args.query then args.query else none,
        id := if args.ids.isSome then args.ids else none,
        project := if strTruthy args.projectId then args.projectId else none,
        team := if args.teamIds.isSome then args.teamIds else none,
        assignee := if args.assigneeIds.isSome then args.assigneeIds else none,
        state := if args.stateIds.isSome then args.stateIds else none,
        labels := if args.labelIds.isSome then args.labelIds else none,
        priority := if args.priority.isSome then args.priority else none } := by
  unfold searchIssuesFilter
  split_ifs <;> rfl

/-- C8: searchIssues executes the search query with exactly the filter
built from its argument; a priority-only argument yields exactly the
priority-equality clause and nothing else; an empty argument yields the
empty filter; absent fields are omitted entirely, and present list
fields, present priority, and present non-empty string fields map to
their corresponding clauses. -/
theorem searchIssues_filter_mapping (tr : Transport) (args : SearchIssuesInput)
    (first : Nat) (after : Option String) (orderBy : String) (s : ClientState) :
    (searchIssues tr args first after orderBy s).calls =
      [Call.searchIssuesQ (searchIssuesFilter args) first after orderBy] ∧
    searchIssuesFilter { priority := some 2 } = { priority := some 2 } ∧
    searchIssuesFilter {} = {} ∧
    ((args.query = none → (searchIssuesFilter args).search = none) ∧
     (args.ids = none → (searchIssuesFilter args).id = none) ∧
     (args.projectId = none → (searchIssuesFilter args).project = none) ∧
     (args.teamIds = none → (searchIssuesFilter args).team = none) ∧
     (args.assigneeIds = none → (searchIssuesFilter args).assignee = none) ∧
     (args.stateIds = none → (searchIssuesFilter args).state = none) ∧
     (args.labelIds = none → (searchIssuesFilter args).labels = none) ∧
     (args.priority = none → (searchIssuesFilter args).priority = none)) ∧
    ((∀ l, args.ids = some l → (searchIssuesFilter args).id = some l) ∧
     (∀ l, args.teamIds = some l → (searchIssuesFilter args).team = some l) ∧
     (∀ l, args.assigneeIds = some l → (searchIssuesFilter args).assignee = some l) ∧
     (∀ l, args.stateIds = some l → (searchIssuesFilter args).state = some l) ∧
     (∀ l, args.labelIds = some l → (searchIssuesFilter args).labels = some l) ∧
     (∀ pr : Int, args.priority = some pr → (searchIssuesFilter args).priority = some pr) ∧
     (∀ q, args.query = some q → q ≠ "" → (searchIssuesFilter args).search = some q) ∧
     (∀ pid, args.projectId = some pid → pid ≠ "" →
        (searchIssuesFilter args).project = some pid)) := by
  refine ⟨rfl, rfl, rfl,
    ⟨?_, ?_, ?_, ?_, ?_, ?_, ?_, ?_⟩, ⟨?_, ?_, ?_, ?_, ?_, ?_, ?_, ?_⟩⟩ <;>
  · intros
    simp [searchIssuesFilter_eq, strTruthy, *]

/-- An argument with every optional field present (strings non-empty). -/
def argsAll : SearchIssuesInput :=
  { query := some "q", ids := some ["i"], projectId := some "p",
    teamIds := some ["t"], assigneeIds := some ["a"], stateIds := some ["w"],
    labelIds := some ["l"], priority := some 2 }

/-- Witness for C8: the instantiations at an empty argument (all eight
keys omitted) and at `argsAll` (all eight keys mapped), plus the
executed call. -/
theorem searchIssues_filter_mapping_witness :
    (searchIssues trOk argsAll 10 none "updatedAt" {}).calls =
      [Call.searchIssuesQ (searchIssuesFilter argsAll) 10 none "updatedAt"] ∧
    ((searchIssuesFilter ({} : SearchIssuesInput)).search = none ∧
     (searchIssuesFilter ({} : SearchIssuesInput)).id = none ∧
     (searchIssuesFilter ({} : SearchIssuesInput)).project = none ∧
     (searchIssuesFilter ({} : SearchIssuesInput)).team = none ∧
     (searchIssuesFilter ({} : SearchIssuesInput)).assignee = none ∧
     (searchIssuesFilter ({} : SearchIssuesInput)).state = none ∧
     (searchIssuesFilter ({} : SearchIssuesInput)).labels = none ∧
     (searchIssuesFilter ({} : SearchIssuesInput)).priority = none) ∧
    ((searchIssuesFilter argsAll).id = some ["i"] ∧
     (searchIssuesFilter argsAll).team = some ["t"] ∧
     (searchIssuesFilter argsAll).assignee = some ["a"] ∧
     (searchIssuesFilter argsAll).state = some ["w"] ∧
     (searchIssuesFilter argsAll).labels = some ["l"] ∧
     (searchIssuesFilter argsAll).priority = some 2 ∧
     (searchIssuesFilter argsAll).search = some "q" ∧
     (searchIssuesFilter argsAll).project = some "p") := by
  have hA := searchIssues_filter_mapping trOk argsAll 10 none "updatedAt" {}
  have hN := searchIssues_filter_mapping trOk {} 10 none "updatedAt" {}
  refine ⟨hA.1, ⟨?_, ?_, ?_, ?_, ?_, ?_, ?_, ?_⟩, ⟨?_, ?_, ?_, ?_, ?_, ?_, ?_, ?_⟩⟩
  · exact hN.2.2.2.1.1 rfl
  · exact hN.2.2.2.1.2.1 rfl
  · exact hN.2.2.2.1.2.2.1 rfl
  · exact hN.2.2.2.1.2.2.2.1 rfl
  · exact hN.2.2.2.1.2.2.2.2.1 rfl
  · exact hN.2.2.2.1.2.2.2.2.2.1 rfl
  · exact hN.2.2.2.1.2.2.2.2.2.2.1 rfl
  · exact hN.2.2.2.1.2.2.2.2.2.2.2 rfl
  · exact hA.2.2.2.2.1 ["i"] rfl
  · exact hA.2.2.2.2.2.1 ["t"] rfl
  · exact hA.2.2.2.2.2.2.1 ["a"] rfl
  · exact hA.2.2.2.2.2.2.2.1 ["w"] rfl
  · exact hA.2.2.2.2.2.2.2.2.1 ["l"] rfl
  · exact hA.2.2.2.2.2.2.2.2.2.1 2 rfl
  · exact hA.2.2.2.2.2.2.2.2.2.2.1 "q" rfl (by decide)
  · exact hA.2.2.2.2.2.2.2.2.2.2.2 "p" rfl (by decide)

/-- C10: priority is tested by type, not truthiness — the filter's
priority key always equals the argument's priority field, including
priority 0 — while string fields are tested by truthiness, so an empty
query or projectId is dropped from the filter. -/
theorem searchIssues_truthiness_tests (args : SearchIssuesInput) :
    (searchIssuesFilter args).priority = args.priority ∧
    searchIssuesFilter { priority := some 0 } = { priority := some 0 } ∧
    searchIssuesFilter { query := some "" } = {} ∧
    (args.query = some "" → (searchIssuesFilter args).search = none) ∧
    (args.projectId = some "" → (searchIssuesFilter args).project = none) := by
  refine ⟨?_, rfl, rfl, ?_, ?_⟩
  · rw [searchIssuesFilter_eq]
    cases h : args.priority <;> simp [h]
  · intro h
    simp [searchIssuesFilter_eq, strTruthy, h]
  · intro h
    simp [searchIssuesFilter_eq, strTruthy, h]

/-- Witness for C10 at an argument carrying empty query and projectId
strings: both are dropped while priority passes through. -/
theorem searchIssues_truthiness_tests_witness :
    (searchIssuesFilter { query := some "", projectId := some "" }).priority =
      ({ query := some "", projectId := some "" } : SearchIssuesInput).priority ∧
    searchIssuesFilter { priority := some 0 } = { priority := some 0 } ∧
    searchIssuesFilter { query := some "" } = {} ∧
    (searchIssuesFilter { query := some "", projectId := some "" }).search = none ∧
    (searchIssuesFilter { query := some "", projectId := some "" }).project = none := by
  have h := searchIssues_truthiness_tests { query := some "", projectId := some "" }
  exact ⟨h.1, h.2.1, h.2.2.1, h.2.2.2.1 rfl, h.2.2.2.2 rfl⟩

end LinearMCP
